import Mathlib

/-!
Verification of the vcpp Vulkan tutorial repository against its specification.

The development shallowly embeds the relevant parts of the C++ sources
(`src/memory.cpp`, `src/pipelines.cpp`, `src/rendering.cpp`,
`src/presentation.cpp` / `src/presentation.hpp`) as executable Lean
definitions.  Vulkan object handles are modelled as natural numbers handed
out by a monotone allocator; machine integers are modelled as `Nat` with
explicit `% 2 ^ 32` where the C++ overflow behaviour matters; C++
exceptions are modelled with `Except String`.
-/

/-! ## Memory (src/memory.cpp) -/

/-- Model of `vk::MemoryType`: only the `propertyFlags` bitmask is read by
the code of the repository. -/
structure VkMemoryType where
  propertyFlags : Nat
deriving Repr, DecidableEq

/-- Model of `vk::PhysicalDeviceMemoryProperties`: the count of valid
memory types and the table itself (in Vulkan a fixed array of 32 entries;
modelled as a list read with a zero default, matching reads below the
count for well-formed tables). -/
structure PhysicalDeviceMemoryProperties where
  memoryTypeCount : Nat
  memoryTypes : List VkMemoryType
deriving Repr, DecidableEq

/-- The constant `2 ^ 32`, the wrap-around modulus of the C++ `std::uint32_t`
`memoryType` accumulator in `find_suitable_memory_index`. -/
def uint32Mod : Nat := 4294967296

/-- Loop of `find_suitable_memory_index` (src/memory.cpp:31-44): iterate
`i` upwards while `i < memoryTypeCount`, with `memoryType = 1 << i`
(wrapping as a 32-bit value), returning the first `i` whose bit is set in
`allowedTypesMask` and whose property flags contain all required flags. -/
def findSuitableMemoryIndexFrom (memoryProperties : PhysicalDeviceMemoryProperties)
    (allowedTypesMask : Nat) (requiredMemoryFlags : Nat) (i : Nat) : Except String Nat :=
  if _h : i < memoryProperties.memoryTypeCount then
    if (allowedTypesMask &&& ((1 <<< i) % uint32Mod)) > 0 ∧
        ((memoryProperties.memoryTypes.getD i ⟨0⟩).propertyFlags &&& requiredMemoryFlags)
          = requiredMemoryFlags then
      Except.ok i
    else
      findSuitableMemoryIndexFrom memoryProperties allowedTypesMask requiredMemoryFlags (i + 1)
  else
    Except.error "could not find suitable gpu memory"
termination_by memoryProperties.memoryTypeCount - i

/-- Model of `vcpp::find_suitable_memory_index` (src/memory.cpp:25-47).
Scans the memory type list from index 0; throws
`"could not find suitable gpu memory"` when no type qualifies. -/
def find_suitable_memory_index (memoryProperties : PhysicalDeviceMemoryProperties)
    (allowedTypesMask : Nat) (requiredMemoryFlags : Nat) : Except String Nat :=
  findSuitableMemoryIndexFrom memoryProperties allowedTypesMask requiredMemoryFlags 0

/-- The wording of the spec for a suitable memory type: bit `i` is set in
the allowed-types mask and every required flag is present in the property
flags of memory type `i`. -/
def SuitableMemoryType (memoryProperties : PhysicalDeviceMemoryProperties)
    (allowedTypesMask : Nat) (requiredMemoryFlags : Nat) (i : Nat) : Prop :=
  Nat.testBit allowedTypesMask i ∧
    ((memoryProperties.memoryTypes.getD i ⟨0⟩).propertyFlags &&& requiredMemoryFlags)
      = requiredMemoryFlags

instance (memoryProperties : PhysicalDeviceMemoryProperties)
    (allowedTypesMask requiredMemoryFlags i : Nat) :
    Decidable (SuitableMemoryType memoryProperties allowedTypesMask requiredMemoryFlags i) :=
  inferInstanceAs (Decidable (_ ∧ _))

/-! ## Pipelines (src/pipelines.cpp) -/

/-- The vertex formats that appear in the repository (`vk::Format`
values mentioned by the pipeline code plus a few of the neighbouring enum
values a caller could pass). -/
inductive VkFormat where
  | eR32Sfloat
  | eR32G32Sfloat
  | eR32G32B32Sfloat
  | eR32G32B32A32Sfloat
  | eB8G8R8A8Unorm
  | eD32Sfloat
deriving Repr, DecidableEq

/-- Model of the anonymous-namespace helper `get_vertex_format_size`
(src/pipelines.cpp:30-39): only `eR32G32B32A32Sfloat` is supported, with
size `4 * sizeof(float) = 16`; everything else throws
`"unsupported vertex format"`. -/
def get_vertex_format_size : VkFormat → Except String Nat
  | VkFormat.eR32G32B32A32Sfloat => Except.ok (4 * 4)
  | _ => Except.error "unsupported vertex format"

/-- Model of `vk::VertexInputAttributeDescription` (the fields set at
src/pipelines.cpp:179-185). -/
structure VertexInputAttributeDescription where
  binding : Nat
  location : Nat
  offset : Nat
  format : VkFormat
deriving Repr, DecidableEq

/-- Model of `vk::VertexInputBindingDescription` (the fields set at
src/pipelines.cpp:189-192); the input rate is the constant
`eVertex` and is omitted. -/
structure VertexInputBindingDescription where
  binding : Nat
  stride : Nat
deriving Repr, DecidableEq

/-- The vertex-attribute loop of `create_graphics_pipeline`
(src/pipelines.cpp:175-187): walk the format list with a running location
`v` and byte `offset`; each attribute gets binding 0, the current
location and offset; then the offset advances by the size of the format
(which throws on an unsupported format).  The `offset` accumulator is a
`std::uint32_t` (src/pipelines.cpp:176,186), so the addition wraps mod
`2 ^ 32`.  Returns the attribute list together with the final offset
(used as the binding stride). -/
def buildVertexAttributeDescriptions :
    List VkFormat → Nat → Nat → Except String (List VertexInputAttributeDescription × Nat)
  | [], _, offset => Except.ok ([], offset)
  | f :: rest, v, offset =>
    match get_vertex_format_size f with
    | Except.error e => Except.error e
    | Except.ok sz =>
      match buildVertexAttributeDescriptions rest (v + 1) ((offset + sz) % uint32Mod) with
      | Except.error e => Except.error e
      | Except.ok (attrs, stride) =>
        Except.ok (⟨0, v, offset, f⟩ :: attrs, stride)

/-- The part of a `vk::GraphicsPipelineCreateInfo` that depends on the
vertex formats: the vertex input state built at
src/pipelines.cpp:175-196.  The remaining states (input assembly,
viewport, rasterization, multisample, color blend) are constants of the
source and carry no data relevant to the claims. -/
structure GraphicsPipelineVertexInputState where
  vertexAttributeDescriptions : List VertexInputAttributeDescription
  vertexBindingDescription : VertexInputBindingDescription
deriving Repr, DecidableEq

/-- Model of `vcpp::create_graphics_pipeline` (src/pipelines.cpp:154-248)
restricted to its only data-dependent computation: the vertex input
layout.  The binding description gets binding 0 and stride equal to the
final accumulated offset (src/pipelines.cpp:189-192). -/
def create_graphics_pipeline (vertexFormats : List VkFormat) :
    Except String GraphicsPipelineVertexInputState :=
  match buildVertexAttributeDescriptions vertexFormats 0 0 with
  | Except.error e => Except.error e
  | Except.ok (attrs, offset) =>
    Except.ok ⟨attrs, ⟨0, offset⟩⟩

/-- Cumulative byte size of a list of vertex formats, counting an
unsupported format as 0 (the sum is only used under the hypothesis that
every format in the list is supported). -/
def vertexFormatSizeSum : List VkFormat → Nat
  | [] => 0
  | f :: rest =>
    (match get_vertex_format_size f with
      | Except.ok sz => sz
      | Except.error _ => 0) + vertexFormatSizeSum rest

/-- The claim-side description of the vertex attribute list: attribute `v`
has binding 0, location `v`, the format at position `v`, and offset equal
to the sum of the byte sizes of the formats at positions `0` to `v - 1` —
reduced mod `2 ^ 32`, since the source accumulates the offset in a
`std::uint32_t`.  Stated from the words of the spec (as amended by that
wrap), to be compared with the layout the code computes. -/
def specVertexAttributes (fs : List VkFormat) : List VertexInputAttributeDescription :=
  (List.range fs.length).map (fun v =>
    ⟨0, v, vertexFormatSizeSum (fs.take v) % uint32Mod,
      fs.getD v VkFormat.eR32G32B32A32Sfloat⟩)

/-! ## Rendering (src/rendering.cpp) -/

/-- Model of `vk::Extent2D`. -/
structure Extent2D where
  width : Nat
  height : Nat
deriving Repr, DecidableEq

/-- Model of `vk::Offset2D`. -/
structure Offset2D where
  x : Int
  y : Int
deriving Repr, DecidableEq

/-- Model of `vk::Rect2D`. -/
structure Rect2D where
  offset : Offset2D
  extent : Extent2D
deriving Repr, DecidableEq

/-- Model of `vk::ClearValue` (src/rendering.cpp:35-38): either a color
(four float components, exactly representable here as rationals) or a
depth/stencil pair. -/
inductive ClearValue where
  | color (r g b a : Rat)
  | depthStencil (depth : Rat) (stencil : Nat)
deriving Repr, DecidableEq

/-- Model of `vk::RenderPassBeginInfo` (the fields set at
src/rendering.cpp:40-44). -/
structure RenderPassBeginInfo where
  renderPass : Nat
  framebuffer : Nat
  renderArea : Rect2D
  clearValues : List ClearValue
deriving Repr, DecidableEq

/-- The pipeline bind points used by the repository. -/
inductive PipelineBindPoint where
  | eGraphics
  | eCompute
deriving Repr, DecidableEq

/-- The subpass-contents values used by the repository. -/
inductive SubpassContents where
  | eInline
deriving Repr, DecidableEq

/-- Commands recorded into a command buffer, one constructor per
`vk::CommandBuffer` member function invoked by
`record_command_buffer`. -/
inductive Command where
  | beginCommandBuffer
  | bindPipeline (bindPoint : PipelineBindPoint) (pipeline : Nat)
  | beginRenderPass (info : RenderPassBeginInfo) (contents : SubpassContents)
  | bindVertexBuffers (firstBinding : Nat) (buffer : Nat) (offset : Nat)
  | draw (vertexCount instanceCount firstVertex firstInstance : Nat)
  | endRenderPass
  | endCommandBuffer
deriving Repr, DecidableEq

/-- Model of `vcpp::record_command_buffer` (src/rendering.cpp:25-57): the
command buffer is modelled as the list of commands recorded into it, in
order.  The clear values fix the color to `(0, 0, 0.5, 1)` and the depth
to `1.0` with stencil `0` (src/rendering.cpp:35-38); the render area sits
at offset `(0, 0)` with the given extent (src/rendering.cpp:43). -/
def record_command_buffer (pipeline : Nat) (renderPass : Nat) (frameBuffer : Nat)
    (renderExtent : Extent2D) (vertexBuffer : Nat) (vertexCount : Nat) : List Command :=
  let clearValues : List ClearValue :=
    [ClearValue.color 0 0 (1 / 2) 1, ClearValue.depthStencil 1 0]
  let renderPassBeginInfo : RenderPassBeginInfo :=
    { renderPass := renderPass
      framebuffer := frameBuffer
      renderArea := ⟨⟨0, 0⟩, renderExtent⟩
      clearValues := clearValues }
  [Command.beginCommandBuffer,
   Command.bindPipeline PipelineBindPoint.eGraphics pipeline,
   Command.beginRenderPass renderPassBeginInfo SubpassContents.eInline,
   Command.bindVertexBuffers 0 vertexBuffer 0,
   Command.draw vertexCount 1 0 0,
   Command.endRenderPass,
   Command.endCommandBuffer]

/-! ## Presentation (src/presentation.cpp, src/presentation.hpp)

Vulkan handles are modelled as natural numbers handed out by a monotone
allocator standing for the object-creation calls of the logical device.  The
results of driver calls that the repository does not compute itself — the
image list returned by `getSwapchainImagesKHR`, the image index returned
by `acquireNextImageKHR`, the `memoryTypeBits` of
`getImageMemoryRequirements` — are parameters of the model. -/

/-- A monotone handle allocator modelling the object-creation calls of the
logical device; every `create*Unique` call yields a fresh handle. -/
structure DeviceAlloc where
  nextHandle : Nat
deriving Repr, DecidableEq

/-- Allocate one fresh handle. -/
def DeviceAlloc.create (d : DeviceAlloc) : Nat × DeviceAlloc :=
  (d.nextHandle, ⟨d.nextHandle + 1⟩)

/-- Model of `vk::SurfaceFormatKHR`. -/
structure SurfaceFormat where
  format : VkFormat
  colorSpace : Nat
deriving Repr, DecidableEq

/-- Model of `vcpp::gpu_image` (src/presentation.hpp:26-30): an image
handle and its backing memory handle. -/
structure gpu_image where
  image : Nat
  memory : Nat
deriving Repr, DecidableEq

/-- The bit `vk::MemoryPropertyFlagBits::eDeviceLocal`. -/
def eDeviceLocal : Nat := 1

/-- Model of the free function `vcpp::create_swapchain`
(src/presentation.cpp:28-51): fills a create-info whose fields are
constants of the source (FIFO present mode, identity transform, opaque
composite alpha, clipped, exclusive sharing, `minImageCount =
numSwapchainImages`) and asks the device for a swapchain handle. -/
def create_swapchain (d : DeviceAlloc) (_surface : Nat) (_surfaceFormat : SurfaceFormat)
    (_surfaceExtent : Extent2D) (_numSwapchainImages : Nat) : Nat × DeviceAlloc :=
  d.create

/-- Model of `vcpp::create_image_view` (src/presentation.cpp:54-75). -/
def create_image_view (d : DeviceAlloc) (_image : Nat) (_format : VkFormat) : Nat × DeviceAlloc :=
  d.create

/-- Model of `vcpp::create_swapchain_image_views`
(src/presentation.cpp:78-95): one view per swapchain image, in order.
The image list is the result of the driver call
`getSwapchainImagesKHR`. -/
def create_swapchain_image_views (d : DeviceAlloc) (swapChainImages : List Nat)
    (imageFormat : VkFormat) : List Nat × DeviceAlloc :=
  match swapChainImages with
  | [] => ([], d)
  | img :: rest =>
    let (view, d1) := create_image_view d img imageFormat
    let (views, d2) := create_swapchain_image_views d1 rest imageFormat
    (view :: views, d2)

/-- Model of `vcpp::create_framebuffers` (src/presentation.cpp:98-121):
one framebuffer per image view, in order, each attaching the view and the
shared depth view. -/
def create_framebuffers (d : DeviceAlloc) (imageViews : List Nat) (_depthImageView : Nat)
    (_imageExtent : Extent2D) (_renderPass : Nat) : List Nat × DeviceAlloc :=
  match imageViews with
  | [] => ([], d)
  | _v :: rest =>
    let (fb, d1) := d.create
    let (fbs, d2) := create_framebuffers d1 rest _depthImageView _imageExtent _renderPass
    (fb :: fbs, d2)

/-- Model of `vcpp::create_depth_image` (src/presentation.cpp:124-159):
create the image, resolve a device-local memory type via
`find_suitable_memory_index` (which may throw), allocate and bind the
memory.  `memoryTypeBits` is the answer of the driver to
`getImageMemoryRequirements`. -/
def create_depth_image (memoryProperties : PhysicalDeviceMemoryProperties)
    (memoryTypeBits : Nat) (d : DeviceAlloc) (_imageExtent : Extent2D) :
    Except String (gpu_image × DeviceAlloc) :=
  let (image, d1) := d.create
  match find_suitable_memory_index memoryProperties memoryTypeBits eDeviceLocal with
  | Except.error e => Except.error e
  | Except.ok _memoryIndex =>
    let (memory, d2) := d1.create
    Except.ok (⟨image, memory⟩, d2)

/-- Model of `vk::FenceCreateInfo`: whether
`vk::FenceCreateFlagBits::eSignaled` is set. -/
structure FenceCreateInfo where
  signaled : Bool
deriving Repr, DecidableEq

/-- Model of `createFenceUnique`: a fresh handle whose device-side status
starts out exactly as the signaled flag of the create-info dictates. -/
def createFence (d : DeviceAlloc) (info : FenceCreateInfo) : (Nat × Bool) × DeviceAlloc :=
  ((d.nextHandle, info.signaled), ⟨d.nextHandle + 1⟩)

/-- Model of `createSemaphoreUnique`. -/
def createSemaphore (d : DeviceAlloc) : Nat × DeviceAlloc :=
  d.create

/-- The synchronization-object loop of the `swapchain` constructor
(src/presentation.cpp:184-197): per iteration one fence created with the
`eSignaled` flag and two semaphores.  Returns the fence handles, their
initial device-side signaled states, the two semaphore handle lists and
the allocator. -/
def createSyncObjects : Nat → DeviceAlloc →
    (List Nat × List Bool × List Nat × List Nat × DeviceAlloc)
  | 0, d => ([], [], [], [], d)
  | n + 1, d =>
    let ((fence, signaled), d1) := createFence d ⟨true⟩
    let (readyForRendering, d2) := createSemaphore d1
    let (readyForPresenting, d3) := createSemaphore d2
    let (fences, signals, rs, ps, d4) := createSyncObjects n d3
    (fence :: fences, signaled :: signals, readyForRendering :: rs, readyForPresenting :: ps, d4)

/-- Model of `vcpp::swapchain::frame_data` (src/presentation.hpp:38-48). -/
structure frame_data where
  swapchainImageIndex : Nat
  inFlightIndex : Nat
  framebuffer : Nat
  inFlightFence : Nat
  readyForRenderingSemaphore : Nat
  readyForPresentingSemaphore : Nat
deriving Repr, DecidableEq

/-- Model of the `vcpp::swapchain` class state
(src/presentation.hpp:65-82).  Field names follow the C++ members;
`deviceFenceSignaled` is not a member of the class: it models the
device-side signaled status of each fence in `m_inFlightFences`, which
the member functions manipulate through `resetFences`. -/
structure swapchain where
  m_logicalDevice : Nat
  m_swapchain : Nat
  m_maxImagesInFlight : Nat
  m_currentFrameIndex : Nat
  m_imageViews : List Nat
  m_framebuffers : List Nat
  m_depthImage : gpu_image
  m_depthImageView : Nat
  m_inFlightFences : List Nat
  m_readyForRenderingSemaphores : List Nat
  m_readyForPresentingSemaphores : List Nat
  deviceFenceSignaled : List Bool
deriving Repr, DecidableEq

/-- Model of the `vcpp::swapchain` constructor
(src/presentation.cpp:162-198): create the swapchain (requesting
`maxImagesInFlight` as the minimum image count), one view per image the
driver actually created, the depth image and its view, one framebuffer
per view, and `maxImagesInFlight` fence/semaphore triples.
`m_currentFrameIndex` starts at 0 (default member initializer,
src/presentation.hpp:71).  Fails exactly when the depth image finds no
device-local memory type. -/
def swapchain.construct (memoryProperties : PhysicalDeviceMemoryProperties)
    (depthMemoryTypeBits : Nat) (logicalDevice : Nat) (d : DeviceAlloc)
    (renderPass : Nat) (surface : Nat) (surfaceFormat : SurfaceFormat)
    (imageExtent : Extent2D) (maxImagesInFlight : Nat) (swapchainImages : List Nat) :
    Except String (swapchain × DeviceAlloc) :=
  let (sc, d1) := create_swapchain d surface surfaceFormat imageExtent maxImagesInFlight
  let (views, d2) := create_swapchain_image_views d1 swapchainImages surfaceFormat.format
  match create_depth_image memoryProperties depthMemoryTypeBits d2 imageExtent with
  | Except.error e => Except.error e
  | Except.ok (depthImage, d3) =>
    let (depthView, d4) := create_image_view d3 depthImage.image VkFormat.eD32Sfloat
    let (fbs, d5) := create_framebuffers d4 views depthView imageExtent renderPass
    let (fences, signals, readySems, presentSems, d6) := createSyncObjects maxImagesInFlight d5
    Except.ok (
      { m_logicalDevice := logicalDevice
        m_swapchain := sc
        m_maxImagesInFlight := maxImagesInFlight
        m_currentFrameIndex := 0
        m_imageViews := views
        m_framebuffers := fbs
        m_depthImage := depthImage
        m_depthImageView := depthView
        m_inFlightFences := fences
        m_readyForRenderingSemaphores := readySems
        m_readyForPresentingSemaphores := presentSems
        deviceFenceSignaled := signals }, d6)

/-- The value `std::numeric_limits<std::uint64_t>::max()`, the timeout passed to
both `acquireNextImageKHR` and `waitForFences`. -/
def uint64Max : Nat := 18446744073709551615

/-- The device calls and internal steps performed by `get_next_frame`, in
the order the model executes them. -/
inductive DeviceOp where
  | acquireNextImage (swapchain : Nat) (timeout : Nat) (semaphore : Nat)
  | waitForFences (fence : Nat) (waitAll : Bool) (timeout : Nat)
  | resetFences (fence : Nat)
  | buildFrameData (frame : frame_data)
  | advanceFrameIndex (newIndex : Nat)
deriving Repr, DecidableEq

/-- Model of `vcpp::swapchain::get_next_frame`
(src/presentation.cpp:200-224).  `acquiredImageIndex` is the image index
the driver returns from `acquireNextImageKHR`.  Steps, in source order:
acquire the next image signaling the readyForRendering semaphore of the
current slot (202-205); wait on the fence of the current slot with waitAll =
true and the maximal timeout (207-210); reset that fence (211); build the
frame data indexing the framebuffer by the acquired image index and the
synchronization objects by the current slot (213-220); advance
`m_currentFrameIndex` modulo `m_maxImagesInFlight` (222).  Returns the
frame data, the post-state and the executed operation trace. -/
def swapchain.get_next_frame (s : swapchain) (acquiredImageIndex : Nat) :
    frame_data × swapchain × List DeviceOp :=
  let cur := s.m_currentFrameIndex
  let acquireOp := DeviceOp.acquireNextImage s.m_swapchain uint64Max
    (s.m_readyForRenderingSemaphores.getD cur 0)
  let waitOp := DeviceOp.waitForFences (s.m_inFlightFences.getD cur 0) true uint64Max
  let resetOp := DeviceOp.resetFences (s.m_inFlightFences.getD cur 0)
  let frame : frame_data :=
    { swapchainImageIndex := acquiredImageIndex
      inFlightIndex := cur
      framebuffer := s.m_framebuffers.getD acquiredImageIndex 0
      inFlightFence := s.m_inFlightFences.getD cur 0
      readyForRenderingSemaphore := s.m_readyForRenderingSemaphores.getD cur 0
      readyForPresentingSemaphore := s.m_readyForPresentingSemaphores.getD cur 0 }
  let nextIndex := (cur + 1) % s.m_maxImagesInFlight
  let s1 : swapchain :=
    { s with
      deviceFenceSignaled := s.deviceFenceSignaled.set cur false
      m_currentFrameIndex := nextIndex }
  (frame, s1,
    [acquireOp, waitOp, resetOp, DeviceOp.buildFrameData frame,
     DeviceOp.advanceFrameIndex nextIndex])

/-- The driving loop: state of the manager after `k` calls to
`get_next_frame`, where `acq k` is the image index the driver returns for
the `k`-th acquisition (counting from 0). -/
def runFrames (acq : Nat → Nat) (s : swapchain) : Nat → swapchain
  | 0 => s
  | k + 1 => (swapchain.get_next_frame (runFrames acq s k) (acq k)).2.1

/-- The frame data returned by the `k`-th call to `get_next_frame`
(counting from 1). -/
def nthFrameData (acq : Nat → Nat) (s : swapchain) (k : Nat) : frame_data :=
  (swapchain.get_next_frame (runFrames acq s (k - 1)) (acq (k - 1))).1


/-- A concrete manager state: the result of `swapchain.construct` with a
one-entry device-local memory table, logical device 7, a fresh allocator,
`maxImagesInFlight = 2` and three swapchain images.  Used by the concrete
instantiations of the theorems below. -/
def sampleSwapchain : swapchain :=
  { m_logicalDevice := 7
    m_swapchain := 0
    m_maxImagesInFlight := 2
    m_currentFrameIndex := 0
    m_imageViews := [1, 2, 3]
    m_framebuffers := [7, 8, 9]
    m_depthImage := ⟨4, 5⟩
    m_depthImageView := 6
    m_inFlightFences := [10, 13]
    m_readyForRenderingSemaphores := [11, 14]
    m_readyForPresentingSemaphores := [12, 15]
    deviceFenceSignaled := [true, true] }

/-! ## Theorems

Helper lemmas come first; each claim of the specification is then settled
by one theorem marked with the claim id. -/

theorem uint32Mod_eq : uint32Mod = 2 ^ 32 := by norm_num [uint32Mod]

theorem maskBit_iff (mask i : Nat) (hmask : mask < uint32Mod) :
    (mask &&& ((1 <<< i) % uint32Mod) > 0) ↔ mask.testBit i := by
  by_cases hi : i < 32
  · have h1 : (1 <<< i) % uint32Mod = 2 ^ i := by
      rw [Nat.shiftLeft_eq, one_mul, uint32Mod_eq]
      exact Nat.mod_eq_of_lt (Nat.pow_lt_pow_right (by norm_num) hi)
    rw [h1, Nat.and_two_pow]
    cases h : mask.testBit i <;> simp [h]
  · have h1 : (1 <<< i) % uint32Mod = 0 := by
      rw [Nat.shiftLeft_eq, one_mul, uint32Mod_eq]
      exact Nat.mod_eq_zero_of_dvd (pow_dvd_pow 2 (by omega))
    have h2 : mask.testBit i = false := by
      rw [uint32Mod_eq] at hmask
      exact Nat.testBit_eq_false_of_lt
        (lt_of_lt_of_le hmask (Nat.pow_le_pow_right (by norm_num) (by omega)))
    simp [h1, h2]

theorem suitable_cond_iff (props : PhysicalDeviceMemoryProperties) (mask req i : Nat)
    (hmask : mask < uint32Mod) :
    ((mask &&& ((1 <<< i) % uint32Mod)) > 0 ∧
      ((props.memoryTypes.getD i ⟨0⟩).propertyFlags &&& req) = req)
      ↔ SuitableMemoryType props mask req i := by
  unfold SuitableMemoryType
  exact and_congr_left' (maskBit_iff mask i hmask)

theorem findSuitableMemoryIndexFrom_ok_iff (props : PhysicalDeviceMemoryProperties)
    (mask req : Nat) (hmask : mask < uint32Mod) (i r : Nat) :
    findSuitableMemoryIndexFrom props mask req i = Except.ok r ↔
      (i ≤ r ∧ r < props.memoryTypeCount ∧ SuitableMemoryType props mask req r ∧
        ∀ j, i ≤ j → j < r → ¬ SuitableMemoryType props mask req j) := by
  rw [findSuitableMemoryIndexFrom]
  split
  · rename_i hlt
    split
    · rename_i hcond
      have hSi : SuitableMemoryType props mask req i :=
        (suitable_cond_iff props mask req i hmask).mp hcond
      constructor
      · intro h
        have hri : i = r := by
          simpa using h
        subst hri
        exact ⟨le_refl i, hlt, hSi, fun j h1 h2 => absurd (le_trans h1 (le_of_lt h2)) (by omega)⟩
      · rintro ⟨h1, h2, h3, h4⟩
        rcases Nat.eq_or_lt_of_le h1 with heq | hl
        · simp [heq]
        · exact absurd hSi (h4 i (le_refl i) hl)
    · rename_i hcond
      have hSi : ¬ SuitableMemoryType props mask req i := fun hS =>
        hcond ((suitable_cond_iff props mask req i hmask).mpr hS)
      rw [findSuitableMemoryIndexFrom_ok_iff props mask req hmask (i + 1) r]
      constructor
      · rintro ⟨h1, h2, h3, h4⟩
        refine ⟨by omega, h2, h3, fun j hj1 hj2 => ?_⟩
        rcases Nat.eq_or_lt_of_le hj1 with heq | hl
        · subst heq; exact hSi
        · exact h4 j hl hj2
      · rintro ⟨h1, h2, h3, h4⟩
        have hir : i ≠ r := fun heq => hSi (heq ▸ h3)
        exact ⟨by omega, h2, h3, fun j hj1 hj2 => h4 j (by omega) hj2⟩
  · rename_i hge
    simp only [reduceCtorEq, false_iff]
    rintro ⟨h1, h2, _, _⟩
    omega
termination_by props.memoryTypeCount - i
decreasing_by omega

theorem findSuitableMemoryIndexFrom_error_iff (props : PhysicalDeviceMemoryProperties)
    (mask req : Nat) (hmask : mask < uint32Mod) (i : Nat) (e : String) :
    findSuitableMemoryIndexFrom props mask req i = Except.error e ↔
      (e = "could not find suitable gpu memory" ∧
        ∀ j, i ≤ j → j < props.memoryTypeCount → ¬ SuitableMemoryType props mask req j) := by
  rw [findSuitableMemoryIndexFrom]
  split
  · rename_i hlt
    split
    · rename_i hcond
      have hSi : SuitableMemoryType props mask req i :=
        (suitable_cond_iff props mask req i hmask).mp hcond
      simp only [reduceCtorEq, false_iff]
      rintro ⟨_, h⟩
      exact h i (le_refl i) hlt hSi
    · rename_i hcond
      have hSi : ¬ SuitableMemoryType props mask req i := fun hS =>
        hcond ((suitable_cond_iff props mask req i hmask).mpr hS)
      rw [findSuitableMemoryIndexFrom_error_iff props mask req hmask (i + 1) e]
      constructor
      · rintro ⟨h1, h2⟩
        refine ⟨h1, fun j hj1 hj2 => ?_⟩
        rcases Nat.eq_or_lt_of_le hj1 with heq | hl
        · subst heq; exact hSi
        · exact h2 j hl hj2
      · rintro ⟨h1, h2⟩
        exact ⟨h1, fun j hj1 hj2 => h2 j (by omega) hj2⟩
  · rename_i hge
    simp only [Except.error.injEq]
    constructor
    · intro h
      exact ⟨h.symm, fun j hj1 hj2 => absurd (lt_of_le_of_lt hj1 hj2) hge⟩
    · intro h
      exact h.1.symm
termination_by props.memoryTypeCount - i
decreasing_by omega

/-- C6: `find_suitable_memory_index` returns the smallest index `i` below
`memoryTypeCount` whose bit is set in the allowed-types mask and whose
property flags contain all required flags, and throws the
no-suitable-memory error exactly when no index below `memoryTypeCount`
satisfies both conditions.  (`mask < 2 ^ 32` reflects the C++
`std::uint32_t` type of `allowedTypesMask`.) -/
theorem find_suitable_memory_index_spec (props : PhysicalDeviceMemoryProperties)
    (mask req : Nat) (hmask : mask < uint32Mod) :
    (∀ i, find_suitable_memory_index props mask req = Except.ok i ↔
      (i < props.memoryTypeCount ∧ SuitableMemoryType props mask req i ∧
        ∀ j, j < i → ¬ SuitableMemoryType props mask req j)) ∧
    ((∃ e, find_suitable_memory_index props mask req = Except.error e) ↔
      ∀ j, j < props.memoryTypeCount → ¬ SuitableMemoryType props mask req j) := by
  constructor
  · intro i
    rw [find_suitable_memory_index, findSuitableMemoryIndexFrom_ok_iff props mask req hmask 0 i]
    constructor
    · rintro ⟨_, h2, h3, h4⟩
      exact ⟨h2, h3, fun j hj => h4 j (Nat.zero_le j) hj⟩
    · rintro ⟨h2, h3, h4⟩
      exact ⟨Nat.zero_le i, h2, h3, fun j _ hj => h4 j hj⟩
  · constructor
    · rintro ⟨e, he⟩
      rw [find_suitable_memory_index,
        findSuitableMemoryIndexFrom_error_iff props mask req hmask 0 e] at he
      exact fun j hj => he.2 j (Nat.zero_le j) hj
    · intro h
      exact ⟨_, (findSuitableMemoryIndexFrom_error_iff props mask req hmask 0 _).mpr
        ⟨rfl, fun j _ hj => h j hj⟩⟩

/-- Witness for C6: on a two-type table where only type 1 qualifies, the
search returns index 1. -/
theorem find_suitable_memory_index_spec_witness :
    find_suitable_memory_index ⟨2, [⟨0⟩, ⟨1⟩]⟩ 3 1 = Except.ok 1 :=
  ((find_suitable_memory_index_spec ⟨2, [⟨0⟩, ⟨1⟩]⟩ 3 1 (by decide)).1 1).mpr
    ⟨by decide, by decide, by decide⟩


theorem buildVertexAttributeDescriptions_eq (fs : List VkFormat) :
    ∀ v0 off0, off0 < uint32Mod →
    (∀ f ∈ fs, ∃ n, get_vertex_format_size f = Except.ok n) →
    buildVertexAttributeDescriptions fs v0 off0 =
      Except.ok ((List.range fs.length).map (fun j =>
          ⟨0, v0 + j, (off0 + vertexFormatSizeSum (fs.take j)) % uint32Mod,
            fs.getD j VkFormat.eR32G32B32A32Sfloat⟩),
        (off0 + vertexFormatSizeSum fs) % uint32Mod) := by
  induction fs with
  | nil =>
    intro v0 off0 hoff _
    simp [buildVertexAttributeDescriptions, vertexFormatSizeSum, Nat.mod_eq_of_lt hoff]
  | cons f rest ih =>
    intro v0 off0 hoff hsup
    obtain ⟨n, hn⟩ := hsup f (List.mem_cons_self f rest)
    have hsum : vertexFormatSizeSum (f :: rest) = n + vertexFormatSizeSum rest := by
      rw [vertexFormatSizeSum, hn]
    have hM : 0 < uint32Mod := by norm_num [uint32Mod]
    rw [buildVertexAttributeDescriptions, hn]
    dsimp only
    rw [ih (v0 + 1) ((off0 + n) % uint32Mod) (Nat.mod_lt _ hM)
      (fun g hg => hsup g (List.mem_cons_of_mem f hg)), hsum]
    rw [List.length_cons, List.range_succ_eq_map, List.map_cons, List.map_map]
    simp only [Except.ok.injEq, Prod.mk.injEq]
    have hwrap : ∀ m : Nat, ((off0 + n) % uint32Mod + m) % uint32Mod
        = (off0 + (n + m)) % uint32Mod := by
      intro m
      conv_lhs => rw [Nat.add_mod]
      conv_rhs => rw [← Nat.add_assoc, Nat.add_mod]
      simp
    refine ⟨?_, hwrap (vertexFormatSizeSum rest)⟩
    simp only [List.cons.injEq]
    refine ⟨?_, ?_⟩
    · simp [vertexFormatSizeSum, List.getD_cons_zero, Nat.mod_eq_of_lt hoff]
    · apply List.map_congr_left
      intro j _
      simp only [Function.comp_apply, List.take_succ_cons, List.getD_cons_succ,
        vertexFormatSizeSum, hn, VertexInputAttributeDescription.mk.injEq,
        true_and, and_true, hwrap (vertexFormatSizeSum (List.take j rest))]
      omega

/-- Byte size of `n` copies of the only supported vertex format. -/
theorem vertexFormatSizeSum_replicate (n : Nat) :
    vertexFormatSizeSum (List.replicate n VkFormat.eR32G32B32A32Sfloat) = 16 * n := by
  induction n with
  | zero => rfl
  | succ n ih =>
    rw [List.replicate_succ, vertexFormatSizeSum, ih]
    simp [get_vertex_format_size]
    ring

/-- Counterexample to C7 as stated: for `2 ^ 28` copies of the 16-byte
supported format the code computes stride `(16 * 2 ^ 28) % 2 ^ 32 = 0`
(the `std::uint32_t` offset accumulator wraps), while the sum of the byte
sizes of all formats is `2 ^ 32 ≠ 0`. -/
theorem create_graphics_pipeline_vertex_layout_counterexample :
    create_graphics_pipeline
        (List.replicate 268435456 VkFormat.eR32G32B32A32Sfloat) =
      Except.ok ⟨specVertexAttributes
        (List.replicate 268435456 VkFormat.eR32G32B32A32Sfloat), ⟨0, 0⟩⟩ ∧
    vertexFormatSizeSum (List.replicate 268435456 VkFormat.eR32G32B32A32Sfloat)
      = 4294967296 ∧
    (0 : Nat) ≠ 4294967296 := by
  have hsum := vertexFormatSizeSum_replicate 268435456
  refine ⟨?_, by rw [hsum], by omega⟩
  rw [create_graphics_pipeline,
    buildVertexAttributeDescriptions_eq _ 0 0 (by norm_num [uint32Mod])
      (fun f hf => by
        rw [List.eq_of_mem_replicate hf]
        exact ⟨16, rfl⟩)]
  dsimp only
  rw [specVertexAttributes, hsum]
  norm_num [uint32Mod]

/-- C7 (amended): for a list of supported vertex formats — shorter than
`2 ^ 32`, so that the `std::uint32_t` loop counter of the source stays
below its modulus and the loop terminates — the pipeline factory computes
attribute `v` with binding 0, location `v` and offset equal to the sum of
the byte sizes of the formats at positions `0` to `v - 1` reduced mod
`2 ^ 32` (first offset 0), and a binding description with binding 0 and
stride equal to the total byte size of all formats reduced mod `2 ^ 32`
(the reduction is the identity whenever the sums stay below `2 ^ 32`). -/
theorem create_graphics_pipeline_vertex_layout (fs : List VkFormat)
    (hlen : fs.length < uint32Mod)
    (hsup : ∀ f ∈ fs, ∃ n, get_vertex_format_size f = Except.ok n) :
    create_graphics_pipeline fs =
      Except.ok ⟨specVertexAttributes fs, ⟨0, vertexFormatSizeSum fs % uint32Mod⟩⟩ := by
  rw [create_graphics_pipeline,
    buildVertexAttributeDescriptions_eq fs 0 0 (by norm_num [uint32Mod]) hsup]
  dsimp only
  rw [specVertexAttributes]
  simp

/-- Witness for C7: two supported formats give offsets 0 and 16 and
stride 32. -/
theorem create_graphics_pipeline_vertex_layout_witness :
    create_graphics_pipeline
        [VkFormat.eR32G32B32A32Sfloat, VkFormat.eR32G32B32A32Sfloat] =
      Except.ok ⟨[⟨0, 0, 0, VkFormat.eR32G32B32A32Sfloat⟩,
        ⟨0, 1, 16, VkFormat.eR32G32B32A32Sfloat⟩], ⟨0, 32⟩⟩ :=
  (create_graphics_pipeline_vertex_layout
    [VkFormat.eR32G32B32A32Sfloat, VkFormat.eR32G32B32A32Sfloat]
    (by norm_num [uint32Mod])
    (by
      intro f hf
      simp only [List.mem_cons, List.not_mem_nil, or_false] at hf
      rcases hf with rfl | rfl <;> exact ⟨16, rfl⟩)).trans (by rfl)

/-- C9: `record_command_buffer` emits exactly the seven-command sequence
begin, bind graphics pipeline, begin render pass (clear color fixed to
`(0, 0, 0.5, 1)`, clear depth `1.0`, render area at offset `(0, 0)` with
the given extent), bind the vertex buffer at offset 0, draw `vertexCount`
vertices (one instance, first vertex 0), end render pass, end — for every
input, with no branching and no other commands. -/
theorem record_command_buffer_sequence (pipeline renderPass frameBuffer : Nat)
    (renderExtent : Extent2D) (vertexBuffer vertexCount : Nat) :
    record_command_buffer pipeline renderPass frameBuffer renderExtent vertexBuffer
        vertexCount =
      [Command.beginCommandBuffer,
       Command.bindPipeline PipelineBindPoint.eGraphics pipeline,
       Command.beginRenderPass
         { renderPass := renderPass
           framebuffer := frameBuffer
           renderArea := ⟨⟨0, 0⟩, renderExtent⟩
           clearValues := [ClearValue.color 0 0 (1 / 2) 1, ClearValue.depthStencil 1 0] }
         SubpassContents.eInline,
       Command.bindVertexBuffers 0 vertexBuffer 0,
       Command.draw vertexCount 1 0 0,
       Command.endRenderPass,
       Command.endCommandBuffer] := rfl


theorem get_next_frame_currentFrameIndex (s : swapchain) (i : Nat) :
    ((swapchain.get_next_frame s i).2.1).m_currentFrameIndex =
      (s.m_currentFrameIndex + 1) % s.m_maxImagesInFlight := rfl

theorem get_next_frame_maxImages (s : swapchain) (i : Nat) :
    ((swapchain.get_next_frame s i).2.1).m_maxImagesInFlight = s.m_maxImagesInFlight := rfl

theorem succ_mod (k N : Nat) : (k % N + 1) % N = (k + 1) % N := by
  conv_rhs => rw [Nat.add_mod]
  conv_lhs => rw [Nat.add_mod]
  simp

theorem runFrames_maxImages (acq : Nat → Nat) (s : swapchain) (k : Nat) :
    (runFrames acq s k).m_maxImagesInFlight = s.m_maxImagesInFlight := by
  induction k with
  | zero => rfl
  | succ k ih => rw [runFrames, get_next_frame_maxImages, ih]

theorem runFrames_currentFrameIndex (acq : Nat → Nat) (s : swapchain) (k : Nat)
    (h0 : s.m_currentFrameIndex = 0) :
    (runFrames acq s k).m_currentFrameIndex = k % s.m_maxImagesInFlight := by
  induction k with
  | zero => simp [runFrames, h0]
  | succ k ih =>
    rw [runFrames, get_next_frame_currentFrameIndex, ih, runFrames_maxImages, succ_mod]

theorem create_swapchain_image_views_length (imgs : List Nat) :
    ∀ (d : DeviceAlloc) (fmt : VkFormat),
    (create_swapchain_image_views d imgs fmt).1.length = imgs.length := by
  induction imgs with
  | nil => intro d fmt; rfl
  | cons i rest ih =>
    intro d fmt
    simp [create_swapchain_image_views, create_image_view, DeviceAlloc.create, ih]

theorem create_framebuffers_length (views : List Nat) :
    ∀ (d : DeviceAlloc) (dv : Nat) (ext : Extent2D) (rp : Nat),
    (create_framebuffers d views dv ext rp).1.length = views.length := by
  induction views with
  | nil => intro d dv ext rp; rfl
  | cons v rest ih =>
    intro d dv ext rp
    simp [create_framebuffers, DeviceAlloc.create, ih]

theorem createSyncObjects_spec (n : Nat) : ∀ (d : DeviceAlloc),
    (createSyncObjects n d).1.length = n ∧
    (createSyncObjects n d).2.1 = List.replicate n true ∧
    (createSyncObjects n d).2.2.1.length = n ∧
    (createSyncObjects n d).2.2.2.1.length = n := by
  induction n with
  | zero => intro d; exact ⟨rfl, rfl, rfl, rfl⟩
  | succ n ih =>
    intro d
    simp [createSyncObjects, createFence, createSemaphore, DeviceAlloc.create,
      List.replicate_succ, ih]

theorem construct_ok_fields (memoryProperties : PhysicalDeviceMemoryProperties)
    (depthMemoryTypeBits logicalDevice : Nat) (d : DeviceAlloc)
    (renderPass surface : Nat) (surfaceFormat : SurfaceFormat) (imageExtent : Extent2D)
    (maxImagesInFlight : Nat) (swapchainImages : List Nat)
    (s : swapchain) (dOut : DeviceAlloc)
    (hok : swapchain.construct memoryProperties depthMemoryTypeBits logicalDevice d
      renderPass surface surfaceFormat imageExtent maxImagesInFlight swapchainImages =
        Except.ok (s, dOut)) :
    s.m_currentFrameIndex = 0 ∧
    s.m_maxImagesInFlight = maxImagesInFlight ∧
    s.m_imageViews.length = swapchainImages.length ∧
    s.m_framebuffers.length = swapchainImages.length ∧
    s.m_inFlightFences.length = maxImagesInFlight ∧
    s.m_readyForRenderingSemaphores.length = maxImagesInFlight ∧
    s.m_readyForPresentingSemaphores.length = maxImagesInFlight ∧
    s.deviceFenceSignaled = List.replicate maxImagesInFlight true := by
  rw [swapchain.construct] at hok
  split at hok
  rename_i sc d1 hsc
  split at hok
  rename_i views d2 hviews
  split at hok
  case _ => exact absurd hok (by simp)
  rename_i depthImage d3 hdepth
  split at hok
  rename_i depthView d4 hview
  split at hok
  rename_i fbs d5 hfbs
  split at hok
  rename_i fences signals readySems presentSems d6 hsync
  rw [Except.ok.injEq, Prod.mk.injEq] at hok
  obtain ⟨hs, hd6⟩ := hok
  subst hs
  have h1 : views.length = swapchainImages.length := by
    have := create_swapchain_image_views_length swapchainImages d1 surfaceFormat.format
    rw [hviews] at this
    exact this
  have h2 : fbs.length = views.length := by
    have := create_framebuffers_length views d4 depthView imageExtent renderPass
    rw [hfbs] at this
    exact this
  have h3 := createSyncObjects_spec maxImagesInFlight d5
  rw [hsync] at h3
  obtain ⟨h3a, h3b, h3c, h3d⟩ := h3
  exact ⟨rfl, rfl, h1, h2.trans h1, h3a, h3c, h3d, h3b⟩

theorem construct_sample_eq :
    swapchain.construct ⟨1, [⟨1⟩]⟩ 1 7 ⟨0⟩ 0 0 ⟨VkFormat.eB8G8R8A8Unorm, 0⟩ ⟨640, 480⟩ 2
      [100, 101, 102] = Except.ok (sampleSwapchain, ⟨16⟩) := by
  have hfind : find_suitable_memory_index ⟨1, [⟨1⟩]⟩ 1 eDeviceLocal = Except.ok 0 := by
    rw [find_suitable_memory_index]
    exact (findSuitableMemoryIndexFrom_ok_iff ⟨1, [⟨1⟩]⟩ 1 eDeviceLocal (by decide) 0 0).mpr
      ⟨le_refl 0, by decide, by decide, fun j h1 h2 => absurd h2 (by omega)⟩
  simp only [swapchain.construct, create_swapchain, create_swapchain_image_views,
    create_image_view, DeviceAlloc.create, create_depth_image, hfind,
    create_framebuffers, createSyncObjects, createFence, createSemaphore, sampleSwapchain]

/-- C3: every execution of `get_next_frame` performs, in this strict
order: acquire the next image (signaling the readyForRendering semaphore
of the current slot), wait on the fence of the current slot (waitAll,
maximal timeout), reset that fence, build the frame data, advance the
slot index — all of steps 1-4 using the pre-advance slot index, and the
fence reset only after the wait. -/
theorem get_next_frame_operation_order (s : swapchain) (acquiredImageIndex : Nat) :
    (swapchain.get_next_frame s acquiredImageIndex).2.2 =
      [DeviceOp.acquireNextImage s.m_swapchain uint64Max
         (s.m_readyForRenderingSemaphores.getD s.m_currentFrameIndex 0),
       DeviceOp.waitForFences (s.m_inFlightFences.getD s.m_currentFrameIndex 0) true uint64Max,
       DeviceOp.resetFences (s.m_inFlightFences.getD s.m_currentFrameIndex 0),
       DeviceOp.buildFrameData (swapchain.get_next_frame s acquiredImageIndex).1,
       DeviceOp.advanceFrameIndex ((s.m_currentFrameIndex + 1) % s.m_maxImagesInFlight)] := rfl

/-- C10: a call to `get_next_frame` leaves every field of the manager
unchanged — device handle, swapchain handle, in-flight capacity, image
views, framebuffers, depth image and view, fence and semaphore handle
lists — except the current slot index, which advances modulo
`m_maxImagesInFlight`, and the device-side signaled state of the fence at
the current slot, which is cleared. -/
theorem get_next_frame_frame_effect (s : swapchain) (acquiredImageIndex : Nat) :
    ((swapchain.get_next_frame s acquiredImageIndex).2.1).m_logicalDevice = s.m_logicalDevice ∧
    ((swapchain.get_next_frame s acquiredImageIndex).2.1).m_swapchain = s.m_swapchain ∧
    ((swapchain.get_next_frame s acquiredImageIndex).2.1).m_maxImagesInFlight
      = s.m_maxImagesInFlight ∧
    ((swapchain.get_next_frame s acquiredImageIndex).2.1).m_imageViews = s.m_imageViews ∧
    ((swapchain.get_next_frame s acquiredImageIndex).2.1).m_framebuffers = s.m_framebuffers ∧
    ((swapchain.get_next_frame s acquiredImageIndex).2.1).m_depthImage = s.m_depthImage ∧
    ((swapchain.get_next_frame s acquiredImageIndex).2.1).m_depthImageView
      = s.m_depthImageView ∧
    ((swapchain.get_next_frame s acquiredImageIndex).2.1).m_inFlightFences
      = s.m_inFlightFences ∧
    ((swapchain.get_next_frame s acquiredImageIndex).2.1).m_readyForRenderingSemaphores
      = s.m_readyForRenderingSemaphores ∧
    ((swapchain.get_next_frame s acquiredImageIndex).2.1).m_readyForPresentingSemaphores
      = s.m_readyForPresentingSemaphores ∧
    ((swapchain.get_next_frame s acquiredImageIndex).2.1).m_currentFrameIndex
      = (s.m_currentFrameIndex + 1) % s.m_maxImagesInFlight ∧
    ((swapchain.get_next_frame s acquiredImageIndex).2.1).deviceFenceSignaled
      = s.deviceFenceSignaled.set s.m_currentFrameIndex false :=
  ⟨rfl, rfl, rfl, rfl, rfl, rfl, rfl, rfl, rfl, rfl, rfl, rfl⟩

/-- C2: the framebuffer in the returned frame data is the framebuffer at
the position of the acquired swapchain image index in the per-image
framebuffer list — indexed by the image index, not by the in-flight slot
index (the framebuffer list length is the image count, unrelated to
`m_maxImagesInFlight`). -/
theorem get_next_frame_framebuffer_by_image_index (s : swapchain) (acquiredImageIndex : Nat)
    (h : acquiredImageIndex < s.m_framebuffers.length) :
    (swapchain.get_next_frame s acquiredImageIndex).1.framebuffer =
      s.m_framebuffers.get ⟨acquiredImageIndex, h⟩ := by
  show s.m_framebuffers.getD acquiredImageIndex 0 = _
  rw [List.getD_eq_getElem s.m_framebuffers 0 h]
  simp

/-- Witness for C2: with framebuffers `[7, 8, 9]`, slot index 0 and
acquired image index 2, the returned framebuffer is `9` (the one at the
image index, not the one at the slot index). -/
theorem get_next_frame_framebuffer_by_image_index_witness :
    (swapchain.get_next_frame sampleSwapchain 2).1.framebuffer = 9 :=
  (get_next_frame_framebuffer_by_image_index sampleSwapchain 2 (by decide)).trans (by decide)

/-- C1: starting from a freshly constructed manager with
`maxImagesInFlight = N ≥ 1`, the `inFlightIndex` of the frame returned by
the `k`-th call to `get_next_frame` (counting from 1) is `(k - 1) % N`:
the slot sequence is `0, 1, ..., N - 1, 0, 1, ...`, periodic with period
`N`, starting at 0. -/
theorem get_next_frame_slot_index_periodic
    (memoryProperties : PhysicalDeviceMemoryProperties)
    (depthMemoryTypeBits logicalDevice : Nat) (d : DeviceAlloc)
    (renderPass surface : Nat) (surfaceFormat : SurfaceFormat) (imageExtent : Extent2D)
    (maxImagesInFlight : Nat) (swapchainImages : List Nat)
    (s : swapchain) (dOut : DeviceAlloc)
    (hok : swapchain.construct memoryProperties depthMemoryTypeBits logicalDevice d
      renderPass surface surfaceFormat imageExtent maxImagesInFlight swapchainImages =
        Except.ok (s, dOut))
    (hN : 1 ≤ maxImagesInFlight) (acq : Nat → Nat) (k : Nat) (hk : 1 ≤ k) :
    (nthFrameData acq s k).inFlightIndex = (k - 1) % maxImagesInFlight := by
  obtain ⟨h0, hNmax, -, -, -, -, -, -⟩ :=
    construct_ok_fields memoryProperties depthMemoryTypeBits logicalDevice d
      renderPass surface surfaceFormat imageExtent maxImagesInFlight swapchainImages
      s dOut hok
  show (runFrames acq s (k - 1)).m_currentFrameIndex = (k - 1) % maxImagesInFlight
  rw [runFrames_currentFrameIndex acq s (k - 1) h0, hNmax]

/-- Witness for C1: with `N = 2`, the 5th call uses slot `(5 - 1) % 2 = 0`. -/
theorem get_next_frame_slot_index_periodic_witness :
    (nthFrameData (fun _ => 0) sampleSwapchain 5).inFlightIndex = 0 :=
  (get_next_frame_slot_index_periodic ⟨1, [⟨1⟩]⟩ 1 7 ⟨0⟩ 0 0
    ⟨VkFormat.eB8G8R8A8Unorm, 0⟩ ⟨640, 480⟩ 2 [100, 101, 102] sampleSwapchain ⟨16⟩
    construct_sample_eq (by decide) (fun _ => 0) 5 (by decide)).trans (by decide)

/-- C4: the constructor creates exactly `maxImagesInFlight` fences, every
one in the signaled state, and exactly `maxImagesInFlight`
readyForRendering and readyForPresenting semaphores. -/
theorem swapchain_construct_sync_objects
    (memoryProperties : PhysicalDeviceMemoryProperties)
    (depthMemoryTypeBits logicalDevice : Nat) (d : DeviceAlloc)
    (renderPass surface : Nat) (surfaceFormat : SurfaceFormat) (imageExtent : Extent2D)
    (maxImagesInFlight : Nat) (swapchainImages : List Nat)
    (s : swapchain) (dOut : DeviceAlloc)
    (hok : swapchain.construct memoryProperties depthMemoryTypeBits logicalDevice d
      renderPass surface surfaceFormat imageExtent maxImagesInFlight swapchainImages =
        Except.ok (s, dOut)) :
    s.m_inFlightFences.length = maxImagesInFlight ∧
    s.deviceFenceSignaled = List.replicate maxImagesInFlight true ∧
    s.m_readyForRenderingSemaphores.length = maxImagesInFlight ∧
    s.m_readyForPresentingSemaphores.length = maxImagesInFlight := by
  obtain ⟨-, -, -, -, h5, h6, h7, h8⟩ :=
    construct_ok_fields memoryProperties depthMemoryTypeBits logicalDevice d
      renderPass surface surfaceFormat imageExtent maxImagesInFlight swapchainImages
      s dOut hok
  exact ⟨h5, h8, h6, h7⟩

/-- Witness for C4: the sample construction with `maxImagesInFlight = 2`
yields two fences, both signaled, and two semaphores of each kind. -/
theorem swapchain_construct_sync_objects_witness :
    sampleSwapchain.m_inFlightFences.length = 2 ∧
    sampleSwapchain.deviceFenceSignaled = List.replicate 2 true ∧
    sampleSwapchain.m_readyForRenderingSemaphores.length = 2 ∧
    sampleSwapchain.m_readyForPresentingSemaphores.length = 2 :=
  swapchain_construct_sync_objects ⟨1, [⟨1⟩]⟩ 1 7 ⟨0⟩ 0 0
    ⟨VkFormat.eB8G8R8A8Unorm, 0⟩ ⟨640, 480⟩ 2 [100, 101, 102] sampleSwapchain ⟨16⟩
    construct_sample_eq

/-- C5: the number of in-flight slots (fences and both semaphore lists)
is fixed at construction to `maxImagesInFlight`, independent of the
swapchain image count, while the image-view and framebuffer counts both
equal the swapchain image count; and `get_next_frame`, the only operation
of the manager, changes none of these lists nor the capacity, on any
state. -/
theorem swapchain_construct_counts_invariant
    (memoryProperties : PhysicalDeviceMemoryProperties)
    (depthMemoryTypeBits logicalDevice : Nat) (d : DeviceAlloc)
    (renderPass surface : Nat) (surfaceFormat : SurfaceFormat) (imageExtent : Extent2D)
    (maxImagesInFlight : Nat) (swapchainImages : List Nat)
    (s : swapchain) (dOut : DeviceAlloc)
    (hok : swapchain.construct memoryProperties depthMemoryTypeBits logicalDevice d
      renderPass surface surfaceFormat imageExtent maxImagesInFlight swapchainImages =
        Except.ok (s, dOut)) :
    s.m_inFlightFences.length = maxImagesInFlight ∧
    s.m_readyForRenderingSemaphores.length = maxImagesInFlight ∧
    s.m_readyForPresentingSemaphores.length = maxImagesInFlight ∧
    s.m_imageViews.length = swapchainImages.length ∧
    s.m_framebuffers.length = swapchainImages.length ∧
    (∀ (t : swapchain) (acquiredImageIndex : Nat),
      ((swapchain.get_next_frame t acquiredImageIndex).2.1).m_imageViews = t.m_imageViews ∧
      ((swapchain.get_next_frame t acquiredImageIndex).2.1).m_framebuffers
        = t.m_framebuffers ∧
      ((swapchain.get_next_frame t acquiredImageIndex).2.1).m_inFlightFences
        = t.m_inFlightFences ∧
      ((swapchain.get_next_frame t acquiredImageIndex).2.1).m_readyForRenderingSemaphores
        = t.m_readyForRenderingSemaphores ∧
      ((swapchain.get_next_frame t acquiredImageIndex).2.1).m_readyForPresentingSemaphores
        = t.m_readyForPresentingSemaphores ∧
      ((swapchain.get_next_frame t acquiredImageIndex).2.1).m_maxImagesInFlight
        = t.m_maxImagesInFlight) := by
  obtain ⟨-, -, h3, h4, h5, h6, h7, -⟩ :=
    construct_ok_fields memoryProperties depthMemoryTypeBits logicalDevice d
      renderPass surface surfaceFormat imageExtent maxImagesInFlight swapchainImages
      s dOut hok
  exact ⟨h5, h6, h7, h3, h4, fun t idx => ⟨rfl, rfl, rfl, rfl, rfl, rfl⟩⟩

/-- Witness for C5: the sample construction has 2 slots against 3
swapchain images; views and framebuffers number 3. -/
theorem swapchain_construct_counts_invariant_witness :
    sampleSwapchain.m_inFlightFences.length = 2 ∧
    sampleSwapchain.m_imageViews.length = 3 ∧
    sampleSwapchain.m_framebuffers.length = 3 :=
  let h := swapchain_construct_counts_invariant ⟨1, [⟨1⟩]⟩ 1 7 ⟨0⟩ 0 0
    ⟨VkFormat.eB8G8R8A8Unorm, 0⟩ ⟨640, 480⟩ 2 [100, 101, 102] sampleSwapchain ⟨16⟩
    construct_sample_eq
  ⟨h.1, h.2.2.2.1, h.2.2.2.2.1⟩
